import Mathlib

/-!
Verification of the discovery event propagation pipeline
(components/konvoy-control-plane/pkg/core/discovery/sink.go).

The Go source defines a `DiscoverySink` holding a single nullable
`DiscoveryConsumer` field.  `AddConsumer` overwrites that field; each of the
four event operations (`OnServiceUpdate`, `OnServiceDelete`,
`OnWorkloadUpdate`, `OnWorkloadDelete`) forwards to the consumer when one is
attached and returns a nil error otherwise.

Embedding choices:
- Payload types `S` (ServiceInfo), `W` (WorkloadInfo), `N` (NamespacedName)
  and the error type `E` are abstract type parameters: the pipeline treats
  the payloads as opaque.  A concrete `NamespacedName` structure is provided
  for concrete instantiations.
- A Go `error` result is `Option E` (`none` is the nil error).
- Downstream consumers are arbitrary stateful Go objects; they are embedded
  as state transformers over an abstract state type `sg`: each of the four
  methods maps a payload and a consumer-side state to an error result and a
  new state.  This makes the downstream side effects of a call observable.
- A nil Go interface value is `none : Option (DiscoveryConsumer ..)`, both
  in the sink's `Consumer` field and as an argument to `AddConsumer`.
- Each sink method returns the (possibly updated) sink alongside the result,
  mirroring the pointer receiver; the Go bodies never assign to the
  receiver, so the embedding returns it unchanged.
-/

/-- A two-part identifier (namespace, name); immutable value type compared by
field-wise equality.  Used to instantiate the abstract payload parameter `N`
at concrete inputs. -/
structure NamespacedName where
  Namespace : String
  Name : String
deriving DecidableEq, Repr

/-- A discovery event: one of the four event kinds together with its
payload, used to quantify uniformly over the four operations of the
pipeline. -/
inductive Event (S W N : Type) where
  | serviceUpdate : S → Event S W N
  | serviceDelete : N → Event S W N
  | workloadUpdate : W → Event S W N
  | workloadDelete : N → Event S W N
deriving DecidableEq, Repr

/-- The DiscoveryConsumer capability: four operations, one per event kind.
A consumer is an arbitrary stateful object, embedded as state transformers
over a consumer-side state `sg`; each operation returns a Go error
(`Option E`, `none` meaning nil) and the updated state. -/
structure DiscoveryConsumer (S W N E sg : Type) where
  OnServiceUpdate : S → sg → Option E × sg
  OnServiceDelete : N → sg → Option E × sg
  OnWorkloadUpdate : W → sg → Option E × sg
  OnWorkloadDelete : N → sg → Option E × sg

/-- DiscoverySink: holds exactly one nullable reference to a downstream
consumer (`none` models the nil Go interface value). -/
structure DiscoverySink (S W N E sg : Type) where
  Consumer : Option (DiscoveryConsumer S W N E sg)

/-- Embeds `func (s *DiscoverySink) AddConsumer(c DiscoveryConsumer)`:
stores `c` (possibly nil) as the sink's consumer, overwriting any previous
value. -/
def DiscoverySink.AddConsumer {S W N E sg : Type}
    (s : DiscoverySink S W N E sg) (c : Option (DiscoveryConsumer S W N E sg)) :
    DiscoverySink S W N E sg :=
  { s with Consumer := c }

/-- Embeds `func (s *DiscoverySink) OnServiceUpdate(svc *ServiceInfo) error`:
if the consumer is non-nil, forward and return its result; otherwise return
nil. -/
def DiscoverySink.OnServiceUpdate {S W N E sg : Type}
    (s : DiscoverySink S W N E sg) (svc : S) (w : sg) :
    Option E × DiscoverySink S W N E sg × sg :=
  match s.Consumer with
  | some c => ((c.OnServiceUpdate svc w).1, s, (c.OnServiceUpdate svc w).2)
  | none => (none, s, w)

/-- Embeds `func (s *DiscoverySink) OnServiceDelete(name core.NamespacedName) error`. -/
def DiscoverySink.OnServiceDelete {S W N E sg : Type}
    (s : DiscoverySink S W N E sg) (name : N) (w : sg) :
    Option E × DiscoverySink S W N E sg × sg :=
  match s.Consumer with
  | some c => ((c.OnServiceDelete name w).1, s, (c.OnServiceDelete name w).2)
  | none => (none, s, w)

/-- Embeds `func (s *DiscoverySink) OnWorkloadUpdate(wrk *WorkloadInfo) error`. -/
def DiscoverySink.OnWorkloadUpdate {S W N E sg : Type}
    (s : DiscoverySink S W N E sg) (wrk : W) (w : sg) :
    Option E × DiscoverySink S W N E sg × sg :=
  match s.Consumer with
  | some c => ((c.OnWorkloadUpdate wrk w).1, s, (c.OnWorkloadUpdate wrk w).2)
  | none => (none, s, w)

/-- Embeds `func (s *DiscoverySink) OnWorkloadDelete(name core.NamespacedName) error`. -/
def DiscoverySink.OnWorkloadDelete {S W N E sg : Type}
    (s : DiscoverySink S W N E sg) (name : N) (w : sg) :
    Option E × DiscoverySink S W N E sg × sg :=
  match s.Consumer with
  | some c => ((c.OnWorkloadDelete name w).1, s, (c.OnWorkloadDelete name w).2)
  | none => (none, s, w)

/-- Dispatches an event of any kind to the matching consumer operation;
packaging that lets theorems quantify over the four event kinds at once. -/
def DiscoveryConsumer.OnEvent {S W N E sg : Type}
    (c : DiscoveryConsumer S W N E sg) : Event S W N → sg → Option E × sg
  | .serviceUpdate svc, w => c.OnServiceUpdate svc w
  | .serviceDelete name, w => c.OnServiceDelete name w
  | .workloadUpdate wrk, w => c.OnWorkloadUpdate wrk w
  | .workloadDelete name, w => c.OnWorkloadDelete name w

/-- Dispatches an event of any kind to the matching sink operation. -/
def DiscoverySink.OnEvent {S W N E sg : Type}
    (s : DiscoverySink S W N E sg) :
    Event S W N → sg → Option E × DiscoverySink S W N E sg × sg
  | .serviceUpdate svc, w => s.OnServiceUpdate svc w
  | .serviceDelete name, w => s.OnServiceDelete name w
  | .workloadUpdate wrk, w => s.OnWorkloadUpdate wrk w
  | .workloadDelete name, w => s.OnWorkloadDelete name w

/-- A DiscoverySink viewed as a DiscoveryConsumer, mirroring the Go
interface-satisfaction assertion `var _ DiscoveryConsumer = &DiscoverySink{}`:
each consumer operation is the corresponding sink operation. -/
def DiscoverySink.asConsumer {S W N E sg : Type}
    (s : DiscoverySink S W N E sg) : DiscoveryConsumer S W N E sg where
  OnServiceUpdate := fun svc w =>
    ((s.OnServiceUpdate svc w).1, (s.OnServiceUpdate svc w).2.2)
  OnServiceDelete := fun name w =>
    ((s.OnServiceDelete name w).1, (s.OnServiceDelete name w).2.2)
  OnWorkloadUpdate := fun wrk w =>
    ((s.OnWorkloadUpdate wrk w).1, (s.OnWorkloadUpdate wrk w).2.2)
  OnWorkloadDelete := fun name w =>
    ((s.OnWorkloadDelete name w).1, (s.OnWorkloadDelete name w).2.2)

/-- Pushes a list of events sequentially into a sink, threading the sink and
the consumer-side state through the calls. -/
def DiscoverySink.pushAll {S W N E sg : Type}
    (s : DiscoverySink S W N E sg) :
    List (Event S W N) → sg → DiscoverySink S W N E sg × sg
  | [], w => (s, w)
  | e :: es, w => DiscoverySink.pushAll (s.OnEvent e w).2.1 es (s.OnEvent e w).2.2

/-- An observing downstream consumer over the state `List (Event S W N)`:
each operation appends the event it receives to the log and returns the
error prescribed by `f`.  Instantiating the abstract consumer with it makes
the exact sequence of calls a sink performs, and their payloads,
observable. -/
def recordingConsumer {S W N E : Type} (f : Event S W N → Option E) :
    DiscoveryConsumer S W N E (List (Event S W N)) where
  OnServiceUpdate := fun svc log =>
    (f (.serviceUpdate svc), log ++ [.serviceUpdate svc])
  OnServiceDelete := fun name log =>
    (f (.serviceDelete name), log ++ [.serviceDelete name])
  OnWorkloadUpdate := fun wrk log =>
    (f (.workloadUpdate wrk), log ++ [.workloadUpdate wrk])
  OnWorkloadDelete := fun name log =>
    (f (.workloadDelete name), log ++ [.workloadDelete name])

/-- Concrete event type used for closed instantiations: ServiceInfo and
WorkloadInfo payloads stand in as strings. -/
abbrev CEvent := Event String String NamespacedName

/-- Concrete consumer type over a recorded event log. -/
abbrev CConsumer := DiscoveryConsumer String String NamespacedName String (List CEvent)

/-- Concrete sink type over a recorded event log. -/
abbrev CSink := DiscoverySink String String NamespacedName String (List CEvent)

/-- Helper: one event pushed into a sink wired to the observing consumer
yields the prescribed error, the same sink, and the log extended by that one
event. -/
theorem recordingConsumer_onEvent {S W N E : Type}
    (f : Event S W N → Option E) (e : Event S W N)
    (log : List (Event S W N)) :
    (DiscoverySink.mk (some (recordingConsumer f))).OnEvent e log =
      (f e, DiscoverySink.mk (some (recordingConsumer f)), log ++ [e]) := by
  cases e <;> rfl

/-- Claim C1: for every event kind K and payload P, calling sink.OnK(P) on a
DiscoverySink whose Consumer is nil returns a nil error, performs no
forwarding call (the downstream state is untouched), and leaves the sink
unchanged. -/
theorem unwired_sink_is_noop {S W N E sg : Type}
    (s : DiscoverySink S W N E sg) (h : s.Consumer = none)
    (e : Event S W N) (w : sg) :
    s.OnEvent e w = (none, s, w) := by
  cases e <;>
    simp [DiscoverySink.OnEvent, DiscoverySink.OnServiceUpdate,
      DiscoverySink.OnServiceDelete, DiscoverySink.OnWorkloadUpdate,
      DiscoverySink.OnWorkloadDelete, h]

/-- Witness for C1: a concrete unwired sink receiving a service-delete event
returns nil, forwards nothing, and is unchanged. -/
theorem unwired_sink_is_noop_witness :
    (DiscoverySink.mk none : CSink).OnEvent
        (.serviceDelete ⟨"ns1", "svc1"⟩) [] =
      (none, DiscoverySink.mk none, []) :=
  unwired_sink_is_noop (DiscoverySink.mk none) rfl
    (.serviceDelete ⟨"ns1", "svc1"⟩) []

/-- Claim C2: for every event kind K, payload P, and attached consumer C, a
sink wired to C forwards OnK(P) as exactly one call C.OnK with the identical
payload and returns C's result unchanged: the call equals a single direct
call to C, for every downstream state; instantiated with an observing
consumer, the receipt log grows by exactly the one event delivered. -/
theorem wired_sink_forwards_once {S W N E sg : Type}
    (c : DiscoveryConsumer S W N E sg) (e : Event S W N) (w : sg)
    (f : Event S W N → Option E) (log : List (Event S W N)) :
    (DiscoverySink.mk (some c)).OnEvent e w =
        ((c.OnEvent e w).1, DiscoverySink.mk (some c), (c.OnEvent e w).2)
      ∧ (DiscoverySink.mk (some (recordingConsumer f))).OnEvent e log =
        (f e, DiscoverySink.mk (some (recordingConsumer f)), log ++ [e]) := by
  cases e <;> exact ⟨rfl, rfl⟩

/-- Claim C3: sink.OnK(P) returns a non-nil error if and only if a consumer
is attached and that consumer's OnK call returned that exact error; the sink
never produces, wraps, or swallows an error of its own. -/
theorem sink_error_iff_downstream_error {S W N E sg : Type}
    (s : DiscoverySink S W N E sg) (e : Event S W N) (w : sg) (err : E) :
    (s.OnEvent e w).1 = some err ↔
      ∃ c, s.Consumer = some c ∧ (c.OnEvent e w).1 = some err := by
  obtain ⟨oc⟩ := s
  cases oc <;> cases e <;>
    simp [DiscoverySink.OnEvent, DiscoverySink.OnServiceUpdate,
      DiscoverySink.OnServiceDelete, DiscoverySink.OnWorkloadUpdate,
      DiscoverySink.OnWorkloadDelete, DiscoveryConsumer.OnEvent]

/-- Claim C4: AddConsumer(C1) followed by AddConsumer(C2) leaves exactly C2
as the downstream target, and every subsequent event call is a single direct
call to C2 — for every downstream state, so C1 receives no further
events. -/
theorem addConsumer_replaces_previous {S W N E sg : Type}
    (s : DiscoverySink S W N E sg)
    (c1 c2 : DiscoveryConsumer S W N E sg) (e : Event S W N) (w : sg) :
    ((s.AddConsumer (some c1)).AddConsumer (some c2)).Consumer = some c2
      ∧ ((s.AddConsumer (some c1)).AddConsumer (some c2)).OnEvent e w =
        ((c2.OnEvent e w).1,
          (s.AddConsumer (some c1)).AddConsumer (some c2),
          (c2.OnEvent e w).2) := by
  cases e <;> exact ⟨rfl, rfl⟩

/-- Counterexample to claim C5 as stated: a wired sink is returned to the
unwired state by the single public operation AddConsumer(nil), so a sequence
of operations can take a wired sink back to unwired. -/
theorem wired_sink_can_unwire_counterexample :
    (DiscoverySink.mk (some (recordingConsumer fun _ => none)) :
        CSink).Consumer.isSome = true
      ∧ ((DiscoverySink.mk (some (recordingConsumer fun _ => none)) :
        CSink).AddConsumer none).Consumer.isSome = false :=
  ⟨rfl, rfl⟩

/-- Claim C5 (amended): the sink has the two observable states unwired and
wired; the event operations cause no transition; AddConsumer with a non-nil
consumer is an edge from either state to wired; AddConsumer with nil is an
edge from either state to unwired — so a wired sink can return to unwired,
but only via AddConsumer(nil). -/
theorem sink_state_machine {S W N E sg : Type}
    (s : DiscoverySink S W N E sg) (c : DiscoveryConsumer S W N E sg)
    (e : Event S W N) (w : sg) :
    (s.OnEvent e w).2.1 = s
      ∧ (s.AddConsumer (some c)).Consumer = some c
      ∧ (s.AddConsumer none).Consumer = none := by
  obtain ⟨oc⟩ := s
  cases oc <;> cases e <;> exact ⟨rfl, rfl, rfl⟩

/-- Claim C6: with sink A wired to sink B and B wired to terminal consumer
C, pushing any event into A equals a single direct call to C: the payload
reaches C identically and C's failure surfaces unchanged from A's call. -/
theorem chained_sinks_forward_to_terminal {S W N E sg : Type}
    (c : DiscoveryConsumer S W N E sg) (e : Event S W N) (w : sg) :
    (DiscoverySink.mk
        (some (DiscoverySink.mk (some c)).asConsumer)).OnEvent e w =
      ((c.OnEvent e w).1,
        DiscoverySink.mk (some (DiscoverySink.mk (some c)).asConsumer),
        (c.OnEvent e w).2) := by
  cases e <;> rfl

/-- Claim C7: a sequence of events pushed sequentially into a wired sink is
received by the downstream consumer exactly once each and in the same
relative order: the observing consumer's log is extended by precisely the
pushed sequence, with no reordering, duplication, or dropping. -/
theorem pushAll_preserves_order {S W N E : Type}
    (f : Event S W N → Option E) (es log : List (Event S W N)) :
    (DiscoverySink.mk (some (recordingConsumer f))).pushAll es log =
      (DiscoverySink.mk (some (recordingConsumer f)), log ++ es) := by
  induction es generalizing log with
  | nil => simp [DiscoverySink.pushAll]
  | cons e es ih =>
    rw [DiscoverySink.pushAll, recordingConsumer_onEvent, ih]
    simp

/-- Claim C8: OnServiceUpdate and OnWorkloadUpdate do not mutate the
payload: the value forwarded downstream is exactly the caller's value, and
the value the observing consumer records is identical to the value passed
in.  Payloads are immutable values of the embedding because the source
performs no write through the payload pointer. -/
theorem update_payload_not_mutated {S W N E sg : Type}
    (f : Event S W N → Option E) (svc : S) (wrk : W)
    (log : List (Event S W N))
    (c : DiscoveryConsumer S W N E sg) (w : sg) :
    (DiscoverySink.mk (some c)).OnServiceUpdate svc w =
        ((c.OnServiceUpdate svc w).1, DiscoverySink.mk (some c),
          (c.OnServiceUpdate svc w).2)
      ∧ (DiscoverySink.mk (some c)).OnWorkloadUpdate wrk w =
        ((c.OnWorkloadUpdate wrk w).1, DiscoverySink.mk (some c),
          (c.OnWorkloadUpdate wrk w).2)
      ∧ (DiscoverySink.mk (some (recordingConsumer f))).OnServiceUpdate
          svc log =
        (f (.serviceUpdate svc),
          DiscoverySink.mk (some (recordingConsumer f)),
          log ++ [Event.serviceUpdate svc])
      ∧ (DiscoverySink.mk (some (recordingConsumer f))).OnWorkloadUpdate
          wrk log =
        (f (.workloadUpdate wrk),
          DiscoverySink.mk (some (recordingConsumer f)),
          log ++ [Event.workloadUpdate wrk]) :=
  ⟨rfl, rfl, rfl, rfl⟩

/-- Claim C9: AddConsumer with a nil consumer is accepted and yields the
unwired behaviour: the Consumer field becomes nil, and every subsequent
event call returns nil, forwards to no one, and leaves the downstream state
untouched, exactly as if no consumer had ever been attached. -/
theorem addConsumer_nil_detaches {S W N E sg : Type}
    (s : DiscoverySink S W N E sg) (e : Event S W N) (w : sg) :
    (s.AddConsumer none).Consumer = none
      ∧ (s.AddConsumer none).OnEvent e w = (none, s.AddConsumer none, w) := by
  cases e <;> exact ⟨rfl, rfl⟩

/-- Claim C10: every event operation leaves the sink itself unchanged —
in particular its Consumer field — whether the downstream call succeeds or
fails; only AddConsumer modifies the sink. -/
theorem onEvent_leaves_sink_unchanged {S W N E sg : Type}
    (s : DiscoverySink S W N E sg) (e : Event S W N) (w : sg) :
    (s.OnEvent e w).2.1 = s
      ∧ ((s.OnEvent e w).2.1).Consumer = s.Consumer := by
  obtain ⟨oc⟩ := s
  cases oc <;> cases e <;> exact ⟨rfl, rfl⟩
